import Mathlib

/-!
# Verification of the pyatn-client payment-channel core

Shallow embedding of `pyatn_client/microraiden/client/channel.py`,
`pyatn_client/atn.py` (`wait_dbot_sync`) and `pyatn_client/utils.py`
(`tobytes32`).  Python integers are unbounded, so balances, deposits and
block numbers are `Int`/`Nat`.  Ethereum addresses are abstracted to `Nat`
(the Python code only ever compares them with `is_same_address`).  External
effects (the ledger gateway, the payee server) are passed in explicitly as
environment records; each ledger-submitting operation returns a result
record carrying the value the Python function returns, whether a
transaction was submitted, and the updated channel.
-/

namespace PyAtn

/-- The cryptographic helpers (`sign_balance_proof`, …) live in the
crypto module of `microraiden/utils`, which is not part of the client
sources here.  Modelled from the spec: `balanceSignature` is "the
signature produced by the current signer over the current `balance`",
i.e. a deterministic function of the private key, the receiver, the open
block, the balance and the channel-manager contract address (exactly the
five arguments `Channel.sign` passes to `sign_balance_proof`). -/
structure BalanceSig where
  privKey : Nat
  receiver : Nat
  block : Nat
  balance : Int
  contractAddr : Nat
  deriving DecidableEq, Repr

/-- Embeds `sign_balance_proof(private_key, receiver, block, balance, contract_address)`. -/
def sign_balance_proof (privKey receiver block : Nat) (balance : Int)
    (contractAddr : Nat) : BalanceSig :=
  ⟨privKey, receiver, block, balance, contractAddr⟩

/-- Embeds `eth_utils.is_same_address` on abstract addresses. -/
def is_same_address (a b : Nat) : Bool := a == b

/-- Embeds `Channel.State` (channel.py lines 20-23). -/
inductive ChannelState where
  | opened
  | settling
  | closed
  deriving DecidableEq, Repr

/-- A `Channel` instance.  `privKey` is `core.private_key` and
`contractAddr` is `core.channel_manager.address` from the `Context`
object; they are immutable for the life of the channel. -/
structure Channel where
  privKey : Nat
  contractAddr : Nat
  sender : Nat
  receiver : Nat
  block : Nat
  deposit : Int
  balance : Int
  balance_sig : BalanceSig
  state : ChannelState
  deriving DecidableEq, Repr

/-- Embeds `Channel.sign` (channel.py lines 67-75). -/
def Channel.sign (c : Channel) : BalanceSig :=
  sign_balance_proof c.privKey c.receiver c.block c.balance c.contractAddr

/-- Embeds `Channel.update_balance` (channel.py lines 59-61): set the balance,
then recompute the signature from the new state. -/
def Channel.update_balance (c : Channel) (value : Int) : Channel :=
  let c1 := { c with balance := value }
  { c1 with balance_sig := c1.sign }

/-- Embeds `Channel.__init__` (channel.py lines 25-49): fields are stored, then
`update_balance(balance)` recomputes the signature. -/
def Channel.init (privKey contractAddr sender receiver block : Nat)
    (deposit balance : Int) (state : ChannelState) : Channel :=
  Channel.update_balance
    { privKey := privKey, contractAddr := contractAddr, sender := sender,
      receiver := receiver, block := block, deposit := deposit,
      balance := 0,
      balance_sig := sign_balance_proof privKey receiver block 0 contractAddr,
      state := state }
    balance

/-- Embeds `Channel.remain_balance` (channel.py lines 334-335). -/
def Channel.remain_balance (c : Channel) : Int :=
  c.deposit - c.balance

/-- Which logging/return branch a ledger-submitting operation took.  The
Python functions return `None` on every branch except `success`; the tag
records the distinct log messages (precondition failure, insufficient
funds, "more blocks until this channel can be settled", invalid closing
signature, "No event received"). -/
inductive OpTag where
  | precondFail
  | insufficientFunds
  | invalidSig
  | waitSignal
  | noEvent
  | success
  deriving DecidableEq, Repr

/-- Result of a ledger-submitting channel operation: the event returned
(`none` models Python `None`, `some bn` the event dict, identified by its
block number), whether `sendRawTransaction` was reached, whether the
`on_settle` callback ran, and the channel state after the call. -/
structure OpResult where
  tag : OpTag
  event : Option Nat
  txSubmitted : Bool
  callbackInvoked : Bool
  chan : Channel
  deriving DecidableEq, Repr

/-- External inputs consumed by `Channel.topup`: the payer's on-chain
account balance (`web3.eth.getBalance`), and whether/where the
`ChannelToppedUp` event is observed before `get_event_blocking` times
out. -/
structure TopupEnv where
  accountBalance : Int
  eventArrives : Bool
  eventBlockNumber : Nat
  deriving DecidableEq, Repr

/-- Embeds `Channel.topup` (channel.py lines 77-131). -/
def Channel.topup (c : Channel) (env : TopupEnv) (deposit : Int) : OpResult :=
  if c.state ≠ ChannelState.opened then
    ⟨OpTag.precondFail, none, false, false, c⟩
  else if env.accountBalance < deposit then
    ⟨OpTag.insufficientFunds, none, false, false, c⟩
  else if env.eventArrives then
    ⟨OpTag.success, some env.eventBlockNumber, true, false,
      { c with deposit := c.deposit + deposit }⟩
  else
    ⟨OpTag.noEvent, none, true, false, c⟩

/-- External inputs consumed by `Channel.close`: whether/where the
`ChannelCloseRequested` event is observed before the timeout. -/
structure CloseEnv where
  eventArrives : Bool
  eventBlockNumber : Nat
  deriving DecidableEq, Repr

/-- Embeds `Channel.close` (channel.py lines 133-181).  Note the override
balance is applied via `update_balance` *before* the transaction is
submitted and the event awaited. -/
def Channel.close (c : Channel) (env : CloseEnv) (balance : Option Int) :
    OpResult :=
  if c.state ≠ ChannelState.opened then
    ⟨OpTag.precondFail, none, false, false, c⟩
  else
    let c1 := match balance with
      | some b => c.update_balance b
      | none => c
    if env.eventArrives then
      ⟨OpTag.success, some env.eventBlockNumber, true, false,
        { c1 with state := ChannelState.settling }⟩
    else
      ⟨OpTag.noEvent, none, true, false, c1⟩

/-- External inputs consumed by `Channel.close_cooperatively`: the
address `verify_closing_sig` recovers from the closing signature
(the crypto module is not in the client sources; modelled from the spec:
"Verifies that `receiverSignature` recovers to the channel's receiver
address"), whether `web3.eth.getCode(receiver)` is non-empty (receiver is
a contract), and whether/where `ChannelSettled` is observed. -/
structure CoopEnv where
  recovered : Nat
  receiverIsContract : Bool
  eventArrives : Bool
  eventBlockNumber : Nat
  deriving DecidableEq, Repr

/-- Embeds `Channel.close_cooperatively` (channel.py lines 183-247).  The
`assert(contract_receiver_owner is not None)` raises when the receiver is
a contract but no owner hint was given; that is the `.error` case. -/
def Channel.close_cooperatively (c : Channel) (env : CoopEnv)
    (contract_receiver_owner : Option Nat) : Except String OpResult :=
  if c.state = ChannelState.closed then
    Except.ok ⟨OpTag.precondFail, none, false, false, c⟩
  else if env.receiverIsContract then
    match contract_receiver_owner with
    | none => Except.error "AssertionError"
    | some owner =>
      if ¬ is_same_address env.recovered owner then
        Except.ok ⟨OpTag.invalidSig, none, false, false, c⟩
      else if env.eventArrives then
        Except.ok ⟨OpTag.success, some env.eventBlockNumber, true, false,
          { c with state := ChannelState.closed }⟩
      else
        Except.ok ⟨OpTag.noEvent, none, true, false, c⟩
  else
    if ¬ is_same_address env.recovered c.receiver then
      Except.ok ⟨OpTag.invalidSig, none, false, false, c⟩
    else if env.eventArrives then
      Except.ok ⟨OpTag.success, some env.eventBlockNumber, true, false,
        { c with state := ChannelState.closed }⟩
    else
      Except.ok ⟨OpTag.noEvent, none, true, false, c⟩

/-- External inputs consumed by `Channel.settle`: the settlement block
recorded by the contract (`getChannelInfo`), the current block number,
and whether/where `ChannelSettled` is observed. -/
structure SettleEnv where
  settleBlock : Int
  currentBlock : Int
  eventArrives : Bool
  eventBlockNumber : Nat
  deriving DecidableEq, Repr

/-- Embeds `Channel.settle` (channel.py lines 249-304).  `wait_remaining =
settle_block - current_block`; a positive remainder aborts with a warning
and no transaction.  On the confirming event the state becomes `closed`
and `on_settle(self)` is invoked. -/
def Channel.settle (c : Channel) (env : SettleEnv) : OpResult :=
  if c.state ≠ ChannelState.settling then
    ⟨OpTag.precondFail, none, false, false, c⟩
  else if env.settleBlock - env.currentBlock > 0 then
    ⟨OpTag.waitSignal, none, false, false, c⟩
  else if env.eventArrives then
    ⟨OpTag.success, some env.eventBlockNumber, true, true,
      { c with state := ChannelState.closed }⟩
  else
    ⟨OpTag.noEvent, none, true, false, c⟩

/-- Embeds `Channel.create_transfer` (channel.py lines 306-329).  `assert value
>= 0` raises on a negative value; an insufficient remaining balance is
checked *before* the closed-state check; note the state check is only
`state == closed`, not `state == open`. -/
def Channel.create_transfer (c : Channel) (value : Int) :
    Except String (Option BalanceSig × Channel) :=
  if value < 0 then
    Except.error "AssertionError"
  else if c.remain_balance < value then
    Except.ok (none, c)
  else if c.state = ChannelState.closed then
    Except.ok (none, c)
  else
    let c1 := c.update_balance (c.balance + value)
    Except.ok (some c1.balance_sig, c1)

/-- Embeds `tobytes32` (utils.py lines 10-13).  `len(s.encode(utf-8))` is the
UTF-8 byte length; `assert(length <= 256)` raises beyond 256 bytes; and
the NUL padding repeated `32 - length` times is empty in Python whenever
`length > 32`, just as `List.replicate (32 - length) 0` is with truncated
`Nat` subtraction. -/
def tobytes32 (s : String) : Except String (List UInt8) :=
  let enc := s.toUTF8.data.toList
  let length := enc.length
  if length ≤ 256 then
    Except.ok (enc ++ List.replicate (32 - length) 0)
  else
    Except.error "AssertionError"

/-- The JSON object returned by the dbot server's channel-info endpoint,
as consumed by `Atn.wait_dbot_sync` (atn.py lines 117-134): its `deposit`
and `balance` fields, converted with `int(...)`. -/
structure DbotChannel where
  deposit : Int
  balance : Int
  deriving DecidableEq, Repr

/-- The mutable state of `Atn.wait_dbot_sync`'s while loop (atn.py lines
124-130): the `retry_times` parameter (read by the loop condition), the
`remain_times` counter (the one actually decremented), the latest
response `dbot_channel`, and how many polls (`get_dbot_channel` calls)
have been made so far. -/
structure SyncState where
  retry_times : Int
  remain_times : Int
  dbot_channel : Option DbotChannel
  polls : Nat
  deriving DecidableEq, Repr

/-- The loop condition of `wait_dbot_sync` (atn.py line 125):
`retry_times > 0 and (dbot_channel is None or
int(dbot_channel[deposit]) != channel.deposit)`. -/
def sync_guard (localDeposit : Int) (st : SyncState) : Bool :=
  decide (0 < st.retry_times) &&
    (match st.dbot_channel with
     | none => true
     | some dc => decide (dc.deposit ≠ localDeposit))

/-- One iteration of the loop body (atn.py lines 126-130):
`remain_times = remain_times - 1; time.sleep(retry_interval);
dbot_channel = self.get_dbot_channel(dbot_address)`.  The `responses`
stream gives the result of the `n`-th poll. -/
def sync_step (responses : Nat → Option DbotChannel) (st : SyncState) :
    SyncState :=
  { st with
    remain_times := st.remain_times - 1,
    dbot_channel := responses st.polls,
    polls := st.polls + 1 }

/-- The loop state after `n` iterations, starting from the state just
before the `while`: one poll already made (atn.py line 123) and
`remain_times = retry_times` (line 124). -/
def sync_iter (responses : Nat → Option DbotChannel) (retry_times : Int)
    (n : Nat) : SyncState :=
  match n with
  | 0 => ⟨retry_times, retry_times, responses 0, 1⟩
  | n + 1 => sync_step responses (sync_iter responses retry_times n)

/-- Labels identifying which `Channel` operation performed a step. -/
inductive OpLabel where
  | updateBalance
  | createTransfer
  | topup
  | close
  | closeCoop
  | settle
  deriving DecidableEq, Repr

/-- One channel operation, with arbitrary arguments and arbitrary
external-environment inputs, taking the channel from `c` to `c'`.  For
the fallible operations the step only exists when Python returns rather
than raising (an `AssertionError` propagates before any mutation). -/
inductive LStep : OpLabel → Channel → Channel → Prop where
  | update_balance (c : Channel) (v : Int) :
      LStep OpLabel.updateBalance c (c.update_balance v)
  | create_transfer (c : Channel) (v : Int) (r : Option BalanceSig)
      (c' : Channel) (h : c.create_transfer v = Except.ok (r, c')) :
      LStep OpLabel.createTransfer c c'
  | topup (c : Channel) (env : TopupEnv) (dep : Int) :
      LStep OpLabel.topup c (c.topup env dep).chan
  | close (c : Channel) (env : CloseEnv) (b : Option Int) :
      LStep OpLabel.close c (c.close env b).chan
  | close_coop (c : Channel) (env : CoopEnv) (owner : Option Nat)
      (r : OpResult) (h : c.close_cooperatively env owner = Except.ok r) :
      LStep OpLabel.closeCoop c r.chan
  | settle (c : Channel) (env : SettleEnv) :
      LStep OpLabel.settle c (c.settle env).chan

/-- The channel-state invariant of the spec: `0 ≤ balance ≤ deposit`. -/
def ChannelInv (c : Channel) : Prop :=
  0 ≤ c.balance ∧ c.balance ≤ c.deposit

/-- A channel step whose externally supplied balances are in range: the
code does not validate the value handed to `update_balance` (directly,
as `close`'s override, or as the remote-sync adopted balance), so the
invariant-preserving steps are those whose injected balance lies in
`[0, deposit]` and whose topup amount is nonnegative.  All other
operations carry no side condition. -/
inductive GuardedStep : Channel → Channel → Prop where
  | update_balance (c : Channel) (v : Int) (h0 : 0 ≤ v)
      (h1 : v ≤ c.deposit) :
      GuardedStep c (c.update_balance v)
  | create_transfer (c : Channel) (v : Int) (r : Option BalanceSig)
      (c' : Channel) (h : c.create_transfer v = Except.ok (r, c')) :
      GuardedStep c c'
  | topup (c : Channel) (env : TopupEnv) (dep : Int) (h : 0 ≤ dep) :
      GuardedStep c (c.topup env dep).chan
  | close_none (c : Channel) (env : CloseEnv) :
      GuardedStep c (c.close env none).chan
  | close_some (c : Channel) (env : CloseEnv) (b : Int) (h0 : 0 ≤ b)
      (h1 : b ≤ c.deposit) :
      GuardedStep c (c.close env (some b)).chan
  | close_coop (c : Channel) (env : CoopEnv) (owner : Option Nat)
      (r : OpResult) (h : c.close_cooperatively env owner = Except.ok r) :
      GuardedStep c r.chan
  | settle (c : Channel) (env : SettleEnv) :
      GuardedStep c (c.settle env).chan

instance (c : Channel) : Decidable (ChannelInv c) := by
  unfold ChannelInv
  infer_instance

/-- Numeric rank of a lifecycle state along `Open → Settling → Closed`. -/
def stateIdx : ChannelState → Nat
  | ChannelState.opened => 0
  | ChannelState.settling => 1
  | ChannelState.closed => 2

/-- A sample open channel: deposit 10, balance 0. -/
def chanOpen : Channel := Channel.init 1 2 3 4 5 10 0 ChannelState.opened

/-- A sample settling channel: deposit 10, balance 0. -/
def chanSettling : Channel := Channel.init 1 2 3 4 5 10 0 ChannelState.settling

/-- A sample open channel with deposit 0, balance 0. -/
def chanZero : Channel := Channel.init 1 2 3 4 5 0 0 ChannelState.opened

/-- A cooperative-close environment whose recovered signer is the sample
channels' receiver (address 4), with a plain (non-contract) receiver and
the confirming event observed at block 42. -/
def envCoopOk : CoopEnv := ⟨4, false, true, 42⟩

/-! ## Theorems -/

/-- Claim C10: for every string `s`, `tobytes32 s` returns exactly 32
bytes (the UTF-8 encoding padded with NUL bytes) when the UTF-8 encoding
of `s` is at most 32 bytes; for encodings of 33 to 256 bytes the
assertion still passes and the unpadded (longer than 32 bytes) encoding
is returned; for encodings longer than 256 bytes the assertion fails. -/
theorem tobytes32_characterization (s : String) :
    (s.toUTF8.data.toList.length ≤ 32 →
      tobytes32 s = Except.ok (s.toUTF8.data.toList ++
        List.replicate (32 - s.toUTF8.data.toList.length) 0) ∧
      (s.toUTF8.data.toList ++
        List.replicate (32 - s.toUTF8.data.toList.length) 0).length = 32) ∧
    (32 < s.toUTF8.data.toList.length → s.toUTF8.data.toList.length ≤ 256 →
      tobytes32 s = Except.ok s.toUTF8.data.toList ∧
      32 < s.toUTF8.data.toList.length) ∧
    (256 < s.toUTF8.data.toList.length →
      tobytes32 s = Except.error "AssertionError") := by
  unfold tobytes32
  refine ⟨fun h => ⟨?_, ?_⟩, fun h1 h2 => ⟨?_, h1⟩, fun h => ?_⟩
  · rw [if_pos (by omega)]
  · simp only [List.length_append, List.length_replicate]
    omega
  · rw [if_pos h2]
    have hz : 32 - s.toUTF8.data.toList.length = 0 := by omega
    rw [hz]
    simp
  · rw [if_neg (by omega)]

/-- Witness for C10, on the two-byte string "ab". -/
theorem tobytes32_characterization_witness :
    "ab".toUTF8.data.toList.length ≤ 32 ∧
    tobytes32 "ab" = Except.ok ("ab".toUTF8.data.toList ++
      List.replicate (32 - "ab".toUTF8.data.toList.length) 0) ∧
    ("ab".toUTF8.data.toList ++
      List.replicate (32 - "ab".toUTF8.data.toList.length) 0).length = 32 :=
  ⟨by decide, ((tobytes32_characterization "ab").1 (by decide)).1,
    ((tobytes32_characterization "ab").1 (by decide)).2⟩

/-- Claim C9: `topup(amount)` on an open channel whose payer account
balance is strictly below `amount` returns `None`, submits no
transaction, and leaves the channel (deposit, balance, signature, state)
unchanged. -/
theorem topup_insufficient_funds (c : Channel) (env : TopupEnv)
    (amount : Int) (hopen : c.state = ChannelState.opened)
    (hlt : env.accountBalance < amount) :
    c.topup env amount =
      ⟨OpTag.insufficientFunds, none, false, false, c⟩ := by
  simp [Channel.topup, hopen, hlt]

/-- Witness for C9: account balance 3, requested topup 4. -/
theorem topup_insufficient_funds_witness :
    Channel.topup chanOpen ⟨3, true, 99⟩ 4 =
      ⟨OpTag.insufficientFunds, none, false, false, chanOpen⟩ :=
  topup_insufficient_funds chanOpen ⟨3, true, 99⟩ 4 (by decide) (by decide)

/-- Claim C2: on an open channel with `0 ≤ v ≤ remainingBalance`,
`create_transfer v` increases the balance by exactly `v`, recomputes the
balance signature as the signature over `(receiver, openBlock, balance)`
at the new balance, and returns that signature. -/
theorem create_transfer_success (c : Channel) (v : Int)
    (hst : c.state = ChannelState.opened) (h0 : 0 ≤ v)
    (hrem : v ≤ c.remain_balance) :
    c.create_transfer v =
      Except.ok (some (sign_balance_proof c.privKey c.receiver c.block
          (c.balance + v) c.contractAddr),
        c.update_balance (c.balance + v)) ∧
    (c.update_balance (c.balance + v)).balance = c.balance + v ∧
    (c.update_balance (c.balance + v)).balance_sig =
      sign_balance_proof c.privKey c.receiver c.block (c.balance + v)
        c.contractAddr := by
  refine ⟨?_, rfl, rfl⟩
  unfold Channel.create_transfer
  rw [if_neg (by omega), if_neg (by omega), if_neg (by simp [hst])]
  rfl

/-- Witness for C2: transfer of 4 on the sample open channel. -/
theorem create_transfer_success_witness :
    Channel.create_transfer chanOpen 4 =
      Except.ok (some (sign_balance_proof chanOpen.privKey
          chanOpen.receiver chanOpen.block (chanOpen.balance + 4)
          chanOpen.contractAddr),
        chanOpen.update_balance (chanOpen.balance + 4)) ∧
    (chanOpen.update_balance (chanOpen.balance + 4)).balance =
      chanOpen.balance + 4 ∧
    (chanOpen.update_balance (chanOpen.balance + 4)).balance_sig =
      sign_balance_proof chanOpen.privKey chanOpen.receiver chanOpen.block
        (chanOpen.balance + 4) chanOpen.contractAddr :=
  create_transfer_success chanOpen 4 (by decide) (by decide) (by decide)

/-- Claim C6: on a channel that is not closed, `close_cooperatively`
with a closing signature that does not recover to the receiver (or, for
a contract receiver, to the supplied owner hint) submits no transaction,
returns the no-event `None` signal, and leaves the channel unchanged. -/
theorem close_coop_invalid_sig (c : Channel) (env : CoopEnv)
    (hnc : c.state ≠ ChannelState.closed) :
    (env.receiverIsContract = false → env.recovered ≠ c.receiver →
      ∀ owner, c.close_cooperatively env owner =
        Except.ok ⟨OpTag.invalidSig, none, false, false, c⟩) ∧
    (env.receiverIsContract = true → ∀ o, env.recovered ≠ o →
      c.close_cooperatively env (some o) =
        Except.ok ⟨OpTag.invalidSig, none, false, false, c⟩) := by
  constructor
  · intro hrc hne owner
    simp [Channel.close_cooperatively, hnc, hrc, is_same_address, hne]
  · intro hrc o hne
    simp [Channel.close_cooperatively, hnc, hrc, is_same_address, hne]

/-- Witness for C6: recovered address 9 differs from receiver 4. -/
theorem close_coop_invalid_sig_witness :
    Channel.close_cooperatively chanOpen ⟨9, false, true, 42⟩ none =
      Except.ok ⟨OpTag.invalidSig, none, false, false, chanOpen⟩ :=
  (close_coop_invalid_sig chanOpen ⟨9, false, true, 42⟩ (by decide)).1
    (by decide) (by decide) none

/-- Claim C8: on a settling channel, `settle` returns the wait signal
with no transaction and no state change while the current block is
before the contract-recorded settlement block; once it is not, and the
`ChannelSettled` event is observed, it transitions the state to closed
and invokes the on-settle callback. -/
theorem settle_characterization (c : Channel) (env : SettleEnv)
    (hst : c.state = ChannelState.settling) :
    (env.currentBlock < env.settleBlock →
      c.settle env = ⟨OpTag.waitSignal, none, false, false, c⟩) ∧
    (env.settleBlock ≤ env.currentBlock → env.eventArrives = true →
      c.settle env = ⟨OpTag.success, some env.eventBlockNumber, true, true,
        { c with state := ChannelState.closed }⟩) := by
  constructor
  · intro hblk
    unfold Channel.settle
    rw [if_neg (by simp [hst]), if_pos (by omega)]
  · intro hblk hev
    unfold Channel.settle
    rw [if_neg (by simp [hst]), if_neg (by omega), if_pos hev]

/-- Witness for C8: both branches on the sample settling channel. -/
theorem settle_characterization_witness :
    Channel.settle chanSettling ⟨100, 50, true, 7⟩ =
      ⟨OpTag.waitSignal, none, false, false, chanSettling⟩ ∧
    Channel.settle chanSettling ⟨100, 100, true, 7⟩ =
      ⟨OpTag.success, some 7, true, true,
        { chanSettling with state := ChannelState.closed }⟩ :=
  ⟨(settle_characterization chanSettling ⟨100, 50, true, 7⟩ (by decide)).1
      (by decide),
    (settle_characterization chanSettling ⟨100, 100, true, 7⟩ (by decide)).2
      (by decide) rfl⟩

/-- Counterexample to claim C3: the code only rejects transfers on a
*closed* channel, so a transfer on a *settling* channel (a non-Open
state) succeeds and mutates the balance, contradicting "in every other
case (including ... any non-Open state) it fails ... and leaves balance
and balanceSignature unchanged". -/
theorem create_transfer_settling_cex :
    ¬ (∀ (c : Channel) (v : Int), c.state ≠ ChannelState.opened →
        ∀ r c', c.create_transfer v = Except.ok (r, c') →
          r = none ∧ c'.balance = c.balance) := by
  intro h
  have h2 := h chanSettling 1 (by decide)
    (some ((chanSettling.update_balance (chanSettling.balance + 1)).balance_sig))
    (chanSettling.update_balance (chanSettling.balance + 1)) (by rfl)
  exact Option.noConfusion h2.1

/-- Claim C3, amended: `create_transfer value` raises an assertion error
on a negative value; returns the no-op `None` signal, leaving balance
and signature unchanged, when `remainingBalance < value` or the state is
Closed; and succeeds (mutating balance and signature) whenever `0 ≤
value ≤ remainingBalance` and the state is *not Closed* — i.e. also in
state Settling, not only in state Open. -/
theorem create_transfer_characterization (c : Channel) (v : Int) :
    (v < 0 → c.create_transfer v = Except.error "AssertionError") ∧
    (0 ≤ v → c.remain_balance < v →
      c.create_transfer v = Except.ok (none, c)) ∧
    (0 ≤ v → v ≤ c.remain_balance → c.state = ChannelState.closed →
      c.create_transfer v = Except.ok (none, c)) ∧
    (0 ≤ v → v ≤ c.remain_balance → c.state ≠ ChannelState.closed →
      c.create_transfer v = Except.ok
        (some ((c.update_balance (c.balance + v)).balance_sig),
          c.update_balance (c.balance + v))) := by
  refine ⟨fun hneg => ?_, fun h0 hlt => ?_, fun h0 hle hcl => ?_,
    fun h0 hle hncl => ?_⟩
  · unfold Channel.create_transfer
    rw [if_pos hneg]
  · unfold Channel.create_transfer
    rw [if_neg (by omega), if_pos hlt]
  · unfold Channel.create_transfer
    rw [if_neg (by omega), if_neg (by omega), if_pos hcl]
  · unfold Channel.create_transfer
    rw [if_neg (by omega), if_neg (by omega), if_neg hncl]

/-- Witness for the amended C3: a negative transfer raises, and a
transfer of 1 on the sample settling channel succeeds. -/
theorem create_transfer_characterization_witness :
    Channel.create_transfer chanSettling (-1) =
      Except.error "AssertionError" ∧
    Channel.create_transfer chanSettling 1 = Except.ok
      (some ((chanSettling.update_balance (chanSettling.balance + 1)).balance_sig),
        chanSettling.update_balance (chanSettling.balance + 1)) :=
  ⟨(create_transfer_characterization chanSettling (-1)).1 (by decide),
    (create_transfer_characterization chanSettling 1).2.2.2 (by decide)
      (by decide) (by decide)⟩

/-- Counterexample to claim C4: `close` applies an override balance via
`update_balance` *before* submitting the transaction, so when the
confirming event never arrives the call returns the no-event signal but
the balance (here 7, previously 0) and its signature have changed. -/
theorem close_override_timeout_cex :
    ¬ ((chanOpen.close ⟨false, 0⟩ (some 7)).event = none →
        (chanOpen.close ⟨false, 0⟩ (some 7)).chan = chanOpen) := by
  decide

/-- Claim C4, amended: on timeout (`no event`), `topup`, `close` without
an override, `close_cooperatively` and `settle` return the no-event
signal and leave the channel exactly unchanged; `close` *with* an
override balance returns the no-event signal with deposit and lifecycle
state unchanged, but with balance and signature already set to the
override by the pre-submission `update_balance`. -/
theorem timeout_leaves_state_unchanged (c : Channel) :
    (∀ env : TopupEnv, env.eventArrives = false → ∀ dep,
      (c.topup env dep).chan = c ∧ (c.topup env dep).event = none) ∧
    (∀ env : CloseEnv, env.eventArrives = false →
      (c.close env none).chan = c ∧ (c.close env none).event = none) ∧
    (∀ env : CoopEnv, env.eventArrives = false → ∀ owner r,
      c.close_cooperatively env owner = Except.ok r →
      r.chan = c ∧ r.event = none) ∧
    (∀ env : SettleEnv, env.eventArrives = false →
      (c.settle env).chan = c ∧ (c.settle env).event = none) ∧
    (∀ env : CloseEnv, env.eventArrives = false → ∀ b,
      c.state = ChannelState.opened →
      (c.close env (some b)).chan = c.update_balance b ∧
      (c.close env (some b)).chan.deposit = c.deposit ∧
      (c.close env (some b)).chan.state = c.state ∧
      (c.close env (some b)).event = none) := by
  refine ⟨fun env hev dep => ?_, fun env hev => ?_,
    fun env hev owner r h => ?_, fun env hev => ?_,
    fun env hev b hst => ?_⟩
  · unfold Channel.topup
    split_ifs <;> simp_all
  · unfold Channel.close
    split_ifs <;> simp_all
  · unfold Channel.close_cooperatively at h
    cases owner <;> (repeat' split at h) <;> (try cases h) <;> simp_all
  · unfold Channel.settle
    split_ifs <;> simp_all
  · unfold Channel.close
    rw [if_neg (by simp [hst]), if_neg (by simp [hev])]
    exact ⟨rfl, rfl, hst ▸ rfl, rfl⟩

/-- Witness for the amended C4: a timed-out topup of 5 on the sample
open channel leaves it unchanged. -/
theorem timeout_leaves_state_unchanged_witness :
    (chanOpen.topup ⟨1000, false, 0⟩ 5).chan = chanOpen ∧
    (chanOpen.topup ⟨1000, false, 0⟩ 5).event = none :=
  (timeout_leaves_state_unchanged chanOpen).1 ⟨1000, false, 0⟩ rfl 5

/-- Counterexample to claim C1: `update_balance` (reachable directly,
as the remote-sync adoption in `wait_dbot_sync`, and as the override in
`close`) does not validate its argument, so from a channel with deposit
0 satisfying the invariant one operation reaches balance 1 > deposit 0. -/
theorem invariant_update_balance_cex :
    ChannelInv chanZero ∧ ¬ ChannelInv (chanZero.update_balance 1) := by
  decide

/-- Single-step preservation of `0 ≤ balance ≤ deposit` along guarded
steps. -/
theorem guardedStep_preserves_inv {c c' : Channel}
    (h : GuardedStep c c') (hinv : ChannelInv c) : ChannelInv c' := by
  obtain ⟨hb0, hbd⟩ := hinv
  cases h with
  | update_balance v h0 h1 =>
      exact ⟨h0, h1⟩
  | create_transfer v r c' h =>
      unfold Channel.create_transfer at h
      split_ifs at h with h1 h2 h3
      · cases h
        exact ⟨hb0, hbd⟩
      · cases h
        exact ⟨hb0, hbd⟩
      · cases h
        unfold Channel.remain_balance at h2
        unfold Channel.update_balance Channel.sign
        refine ⟨by simpa using by omega, by simpa using by omega⟩
  | topup env dep h =>
      unfold Channel.topup
      split_ifs <;> refine ⟨by simpa using hb0, by simpa using by omega⟩
  | close_none env =>
      unfold Channel.close
      split_ifs <;> exact ⟨by simpa using hb0, by simpa using hbd⟩
  | close_some env b h0 h1 =>
      unfold Channel.close
      split_ifs <;>
        first
          | exact ⟨hb0, hbd⟩
          | exact ⟨by simpa [Channel.update_balance] using h0,
              by simpa [Channel.update_balance] using h1⟩
  | close_coop env owner r h =>
      unfold Channel.close_cooperatively at h
      cases owner <;> (repeat' split at h) <;> (try cases h) <;>
        simp_all <;> exact ⟨hb0, hbd⟩
  | settle env =>
      unfold Channel.settle
      split_ifs <;> exact ⟨by simpa using hb0, by simpa using hbd⟩

/-- Claim C1, amended: construction establishes the invariant `0 ≤
balance ≤ deposit` when the initial balance is within `[0, deposit]`,
and every reachable state keeps it provided each externally injected
balance (`update_balance` directly, the `close` override, the
remote-sync adopted balance) lies in `[0, deposit]` and each topup
amount is nonnegative; the code itself does not enforce these bounds
(see the counterexample), so the invariant is conditional on them. -/
theorem channel_invariant_reachable :
    (∀ pk ca s r blk (d b : Int) st, 0 ≤ b → b ≤ d →
      ChannelInv (Channel.init pk ca s r blk d b st)) ∧
    (∀ c c', ChannelInv c → Relation.ReflTransGen GuardedStep c c' →
      ChannelInv c') := by
  constructor
  · intro pk ca s r blk d b st hb0 hbd
    exact ⟨by simpa [Channel.init, Channel.update_balance] using hb0,
      by simpa [Channel.init, Channel.update_balance] using hbd⟩
  · intro c c' hinv hsteps
    induction hsteps with
    | refl => exact hinv
    | tail _ hstep ih => exact guardedStep_preserves_inv hstep ih

/-- Witness for the amended C1: a freshly constructed channel with
deposit 10 and balance 3 satisfies the invariant, and it is preserved
across a transfer of 2 followed by a topup of 5. -/
theorem channel_invariant_reachable_witness :
    ChannelInv ((Channel.init 1 2 3 4 5 10 3 ChannelState.opened).update_balance 7) :=
  channel_invariant_reachable.2 (Channel.init 1 2 3 4 5 10 3 ChannelState.opened)
    ((Channel.init 1 2 3 4 5 10 3 ChannelState.opened).update_balance 7)
    (channel_invariant_reachable.1 1 2 3 4 5 10 3 ChannelState.opened
      (by decide) (by decide))
    (Relation.ReflTransGen.single
      (GuardedStep.update_balance _ 7 (by decide) (by decide)))

/-- The possible lifecycle-state effects of a single labelled step:
either the state is untouched, or `close` moves Open to Settling, or
`close_cooperatively` moves a non-Closed state to Closed, or `settle`
moves Settling to Closed. -/
theorem lstep_state_cases {l : OpLabel} {c c' : Channel}
    (h : LStep l c c') :
    c'.state = c.state ∨
    (l = OpLabel.close ∧ c.state = ChannelState.opened ∧
      c'.state = ChannelState.settling) ∨
    (l = OpLabel.closeCoop ∧ c.state ≠ ChannelState.closed ∧
      c'.state = ChannelState.closed) ∨
    (l = OpLabel.settle ∧ c.state = ChannelState.settling ∧
      c'.state = ChannelState.closed) := by
  cases h with
  | update_balance v =>
      exact Or.inl rfl
  | create_transfer =>
      rename_i h
      unfold Channel.create_transfer at h
      split_ifs at h <;> (try cases h) <;> simp_all [Channel.update_balance]
  | topup =>
      unfold Channel.topup
      split_ifs <;> simp_all
  | close =>
      rename_i env b
      cases b <;> unfold Channel.close <;> split_ifs <;>
        simp_all [Channel.update_balance, Channel.sign]
  | close_coop =>
      rename_i owner r h
      unfold Channel.close_cooperatively at h
      cases owner <;> (repeat' split at h) <;> (try cases h) <;> simp_all
  | settle =>
      unfold Channel.settle
      split_ifs <;> simp_all

/-- Counterexample to claim C7: `close_cooperatively` only requires the
state not to be Closed, so it can also close a *Settling* channel —
Settling is not "exited only by settle". -/
theorem settling_coop_exit_cex :
    ¬ (∀ (l : OpLabel) (c c' : Channel), LStep l c c' →
        c.state = ChannelState.settling → c'.state ≠ ChannelState.settling →
        l = OpLabel.settle) := by
  intro hclaim
  have hres : chanSettling.close_cooperatively envCoopOk none =
      Except.ok ⟨OpTag.success, some 42, true, false,
        { chanSettling with state := ChannelState.closed }⟩ := by rfl
  have hstep := LStep.close_coop chanSettling envCoopOk none _ hres
  have hl := hclaim OpLabel.closeCoop chanSettling _ hstep rfl (by decide)
  exact absurd hl (by decide)

/-- Claim C7, amended: over every operation the lifecycle state is
monotone along `Open → Settling → Closed`; Settling is entered only by
the unilateral `close` from Open; Settling is exited only to Closed, by
`settle` *or by `close_cooperatively`* (which requires only a non-Closed
state); and Closed is terminal. -/
theorem lifecycle_monotone (l : OpLabel) (c c' : Channel)
    (h : LStep l c c') :
    stateIdx c.state ≤ stateIdx c'.state ∧
    (c'.state = ChannelState.settling → c.state ≠ ChannelState.settling →
      c.state = ChannelState.opened ∧ l = OpLabel.close) ∧
    (c.state = ChannelState.settling → c'.state ≠ ChannelState.settling →
      c'.state = ChannelState.closed ∧
        (l = OpLabel.settle ∨ l = OpLabel.closeCoop)) ∧
    (c.state = ChannelState.closed → c'.state = ChannelState.closed) := by
  rcases lstep_state_cases h with heq | ⟨hl, h1, h2⟩ | ⟨hl, h1, h2⟩ |
    ⟨hl, h1, h2⟩
  · exact ⟨by rw [heq], fun ha hb => absurd (heq.symm.trans ha) hb,
      fun ha hb => absurd (heq.trans ha) hb, fun ha => heq.trans ha⟩
  · refine ⟨by rw [h1, h2]; decide, fun _ _ => ⟨h1, hl⟩, ?_, ?_⟩
    · intro ha hb
      rw [h1] at ha
      exact absurd ha (by decide)
    · intro ha
      rw [h1] at ha
      exact absurd ha (by decide)
  · refine ⟨?_, ?_, fun ha hb => ⟨h2, Or.inr hl⟩, fun ha => absurd ha h1⟩
    · rw [h2]
      cases hst : c.state <;> decide
    · intro ha hb
      rw [h2] at ha
      exact absurd ha (by decide)
  · refine ⟨by rw [h1, h2]; decide, ?_, fun _ _ => ⟨h2, Or.inl hl⟩, ?_⟩
    · intro ha hb
      rw [h2] at ha
      exact absurd ha (by decide)
    · intro ha
      rw [h1] at ha
      exact absurd ha (by decide)

/-- Witness for the amended C7: a `close` step on the sample open
channel reaches Settling, satisfying every conjunct at that input. -/
theorem lifecycle_monotone_witness :
    stateIdx chanOpen.state ≤
      stateIdx (chanOpen.close ⟨true, 42⟩ none).chan.state ∧
    (chanOpen.close ⟨true, 42⟩ none).chan.state = ChannelState.settling :=
  ⟨(lifecycle_monotone OpLabel.close chanOpen
      (chanOpen.close ⟨true, 42⟩ none).chan
      (LStep.close chanOpen ⟨true, 42⟩ none)).1, rfl⟩

/-- Claim C5 records the intended retry bound of `wait_dbot_sync`, but
the code decrements `remain_times` while the loop condition tests
`retry_times`, which never changes: with the default `retry_times = 5`
and a server that never reports the local deposit, the loop guard still
holds after every number of iterations (the `retry_times` component is
invariantly 5 and one more poll has been made per iteration), so the
loop never exits and the hard failure is never raised. -/
theorem wait_dbot_sync_loop_never_exits (d : Int) (n : Nat) :
    (sync_iter (fun _ => none) 5 n).retry_times = 5 ∧
    (sync_iter (fun _ => none) 5 n).polls = n + 1 ∧
    sync_guard d (sync_iter (fun _ => none) 5 n) = true := by
  induction n with
  | zero => exact ⟨rfl, rfl, rfl⟩
  | succ n ih =>
      obtain ⟨h1, h2, _⟩ := ih
      exact ⟨by simp [sync_iter, sync_step, h1],
        by simp [sync_iter, sync_step, h2],
        by simp [sync_iter, sync_step, sync_guard, h1]⟩

/-- Witness for C5: after 6 iterations — beyond the intended budget of
5 — the guard still holds and 7 polls have been made. -/
theorem wait_dbot_sync_loop_never_exits_witness :
    (sync_iter (fun _ => none) 5 6).retry_times = 5 ∧
    (sync_iter (fun _ => none) 5 6).polls = 7 ∧
    sync_guard 1000 (sync_iter (fun _ => none) 5 6) = true :=
  wait_dbot_sync_loop_never_exits 1000 6

end PyAtn
